import Mathlib

/-!
Verification of the texbuild repository (src/texbuild/build.py and
src/texbuild/arbitrary.py) against its natural-language specification.

The Python code is shallowly embedded: the process world (a filesystem of
path-indexed nodes, the working directory, the console output, the trace of
external process invocations and the trace of file copies) is an explicit
state, and every Python function becomes a state-passing Lean function
returning an Except value for raised exceptions.  External binaries
(latexmk, inotifywait) are oracles supplied as parameters; the effect of
the pinned rsync command is modelled concretely from its documented
semantics, since the source fixes the exact command line.
-/

namespace Texbuild

/-- Exceptions of the modelled Python runtime that the embedded code can
raise or catch: CalledProcessError from subprocess.run with check=True,
FileExistsError and FileNotFoundError from os and shutil calls, and
TypeError from concatenating a list with a string. -/
inductive PyErr where
  | calledProcessError (returncode : Int)
  | fileExists (p : String)
  | fileNotFound (p : String)
  | typeError
deriving DecidableEq

/-- A filesystem node: a regular file with its contents, or a directory. -/
inductive Node where
  | file (content : String)
  | dir
deriving DecidableEq

/-- A filesystem: a finite association list from full path strings to
nodes.  Lookup returns the first matching entry. -/
structure FS where
  entries : List (String × Node)
deriving DecidableEq

def FS.find (fs : FS) (p : String) : Option Node :=
  (fs.entries.find? (fun e => e.1 == p)).map (fun e => e.2)

/-- Create or overwrite the entry at path p. -/
def FS.set (fs : FS) (p : String) (n : Node) : FS :=
  ⟨(p, n) :: fs.entries.filter (fun e => !(e.1 == p))⟩

def FS.isDir (fs : FS) (p : String) : Bool :=
  match fs.find p with
  | some Node.dir => true
  | _ => false

def FS.isFile (fs : FS) (p : String) : Bool :=
  match fs.find p with
  | some (Node.file _) => true
  | _ => false

def FS.getFile (fs : FS) (p : String) : Option String :=
  match fs.find p with
  | some (Node.file c) => some c
  | _ => none

/-- The process world: the filesystem, the current working directory, the
console output (latest print first), the trace of external process
invocations (argv together with the working directory they were started
in, latest first), and the trace of file copies performed by copy2
(source, destination; latest first). -/
structure Sys where
  fs : FS
  cwd : String
  out : List String
  procs : List (List String × String)
  copies : List (String × String)
deriving DecidableEq

/-- A modelled Python computation: state passing over Sys, with raised
exceptions as Except errors.  State mutations made before an exception
persist, as in Python. -/
def M (α : Type) : Type := Sys → Except PyErr α × Sys

def M.pure (a : α) : M α := fun s => (Except.ok a, s)

def M.bind (m : M α) (f : α → M β) : M β := fun s =>
  match m s with
  | (Except.ok a, s') => f a s'
  | (Except.error e, s') => (Except.error e, s')

instance : Monad M where
  pure := M.pure
  bind := M.bind

instance {ε α : Type} [DecidableEq ε] [DecidableEq α] :
    DecidableEq (Except ε α) := fun x y =>
  match x, y with
  | Except.error e, Except.error f => decidable_of_iff (e = f) (by simp)
  | Except.ok a, Except.ok b => decidable_of_iff (a = b) (by simp)
  | Except.error _, Except.ok _ => isFalse (by simp)
  | Except.ok _, Except.error _ => isFalse (by simp)

/-- Does the string start with a slash character. -/
def strHeadIsSlash (b : String) : Bool := b.toList.head? == some '/'

/-- Does the string end with a slash character. -/
def strLastIsSlash (a : String) : Bool := a.toList.getLast? == some '/'

/-- Model of posixpath.join for two components, as used by os.path.join in
the source: an absolute second component replaces the first; otherwise the
components are concatenated, inserting a separator unless the first is
empty or already ends with one.  No normalization is performed. -/
def pathJoin (a b : String) : String :=
  if strHeadIsSlash b then b
  else if a == "" || strLastIsSlash a then a ++ b
  else a ++ "/" ++ b

/-- Characters strictly before the last slash, or none if there is no
slash. -/
def dirnameAux : List Char → Option (List Char)
  | [] => none
  | c :: cs =>
    match dirnameAux cs with
    | some r => some (c :: r)
    | none => if c == '/' then some [] else none

def dropTrailingSlashes (l : List Char) : List Char :=
  (l.reverse.dropWhile (fun c => c == '/')).reverse

/-- Model of posixpath.dirname: everything up to the last slash, with
trailing separators stripped unless the head consists only of
separators. -/
def dirname (s : String) : String :=
  match dirnameAux s.toList with
  | none => ""
  | some h =>
    if h.all (fun c => c == '/') then String.mk (h ++ ['/'])
    else String.mk (dropTrailingSlashes h)

/-- Model of posixpath.basename: everything after the last slash. -/
def basename (s : String) : String :=
  String.mk ((s.toList.reverse.takeWhile (fun c => !(c == '/'))).reverse)

/-- Model of posixpath.split. -/
def pathSplit (s : String) : String × String := (dirname s, basename s)

/-- Strip a leading character sequence: some remainder when the second
list starts with the first, none otherwise. -/
def stripLead : List Char → List Char → Option (List Char)
  | [], l => some l
  | _ :: _, [] => none
  | c :: cs, d :: ds => if c == d then stripLead cs ds else none

/-- Does s start with the string pre (Python str.startswith). -/
def strStartsWith (s pre : String) : Bool :=
  (stripLead pre.toList s.toList).isSome

/-- The ANSI markup constants of class Bcolors in build.py. -/
def Bcolors.HEADER : String := "\x1b[95m"

def Bcolors.INFOBLUE : String := "\x1b[94m"

def Bcolors.OKGREEN : String := "\x1b[92m"

def Bcolors.WARNING : String := "\x1b[93m"

def Bcolors.FAIL : String := "\x1b[91m"

def Bcolors.ENDC : String := "\x1b[0m"

def Bcolors.BOLD : String := "\x1b[1m"

def Bcolors.UNDERLINE : String := "\x1b[4m"

/-- Python print(txt, end=endStr): record the written string on the
console trace (latest first). -/
def pyPrint (txt : String) (endStr : String) : M Unit := fun s =>
  (Except.ok (), { s with out := (txt ++ endStr) :: s.out })

/-- print_markup from build.py: print(markup + txt + Bcolors.ENDC, end=endStr).
The Python default for endStr is a newline; call sites pass it explicitly
here. -/
def print_markup (txt markup endStr : String) : M Unit :=
  pyPrint (markup ++ txt ++ Bcolors.ENDC) endStr

/-- print_frame from build.py: a border of asterisks sized from the longest
line of txt, then the framed text.  The Python default markup argument is
Bcolors.INFOBLUE ++ Bcolors.BOLD; call sites pass it explicitly here. -/
def print_frame (txt markup : String) : M Unit := do
  let border := String.mk (List.replicate
    ((((txt.splitOn "\n").map String.length).foldl max 0) + 4) '*')
  print_markup border Bcolors.BOLD "\n"
  print_markup "| " Bcolors.BOLD ""
  print_markup txt markup ""
  print_markup " |" Bcolors.BOLD "\n"
  print_markup border Bcolors.BOLD "\n"

/-- Model of os.mkdir: FileExistsError if any entry exists at the path,
FileNotFoundError if the parent is not a directory, otherwise the
directory is created.  The empty dirname stands for the implicit root of
relative paths and must be a directory entry of the modelled
filesystem. -/
def os_mkdir (p : String) : M Unit := fun s =>
  if (s.fs.find p).isSome then (Except.error (PyErr.fileExists p), s)
  else if s.fs.isDir (dirname p) then
    (Except.ok (), { s with fs := s.fs.set p Node.dir })
  else (Except.error (PyErr.fileNotFound p), s)

/-- Model of os.path.exists. -/
def os_path_exists (p : String) : M Bool := fun s =>
  (Except.ok (s.fs.find p).isSome, s)

/-- Model of os.makedirs, following CPython: split off the last component,
recursively create the head when it is missing (swallowing a concurrent
FileExistsError), then mkdir the full path, swallowing an OSError when
exist_ok is set and the path is now a directory.  The recursion of CPython
is on the strictly shorter head; it is rendered here with a fuel argument
that the callers instantiate large enough (the path length suffices). -/
def os_makedirsFuel : Nat → String → Bool → M Unit
  | 0, name, _ => fun s => (Except.error (PyErr.fileNotFound name), s)
  | Nat.succ fuel, name, exist_ok => fun s =>
    let ht := pathSplit name
    let ht := if ht.2 == "" then pathSplit ht.1 else ht
    let step1 : Except PyErr Unit × Sys :=
      if ht.1 ≠ "" ∧ ht.2 ≠ "" ∧ (s.fs.find ht.1).isSome = false then
        match os_makedirsFuel fuel ht.1 exist_ok s with
        | (Except.error (PyErr.fileExists _), s1) => (Except.ok (), s1)
        | r => r
      else (Except.ok (), s)
    match step1 with
    | (Except.error e, s1) => (Except.error e, s1)
    | (Except.ok _, s1) =>
      if ht.2 == "." then (Except.ok (), s1)
      else
        match os_mkdir name s1 with
        | (Except.ok _, s2) => (Except.ok (), s2)
        | (Except.error e, s2) =>
          if exist_ok ∧ s2.fs.isDir name then (Except.ok (), s2)
          else (Except.error e, s2)

/-- makedir from arbitrary.py, for a single path component (the source
joins its varargs with os.path.join; every caller passes exactly one).
The mode argument is not modelled.  Non-recursive: try os.mkdir and
swallow FileExistsError exactly when exists_ok is set; other errors
propagate.  Recursive: os.makedirs with exist_ok.  Returns the path. -/
def makedir (p : String) (exists_ok : Bool) (recursive : Bool) : M String := fun s =>
  if recursive then
    match os_makedirsFuel (p.length + 1) p exists_ok s with
    | (Except.ok _, s') => (Except.ok p, s')
    | (Except.error e, s') => (Except.error e, s')
  else
    match os_mkdir p s with
    | (Except.ok _, s') => (Except.ok p, s')
    | (Except.error (PyErr.fileExists q), s') =>
      if exists_ok then (Except.ok p, s')
      else (Except.error (PyErr.fileExists q), s')
    | (Except.error e, s') => (Except.error e, s')

/-- default from arbitrary.py. -/
def default (x : Option α) (default_value : α) : α :=
  match x with
  | none => default_value
  | some v => v

/-- having_cwd from arbitrary.py: record the current working directory,
change into the given one, run the body, and restore the recorded
directory in a finally block, on the normal path and on the exception path
alike.  os.chdir is modelled as updating the tracked working directory;
its own operating-system failure modes are outside the model. -/
def having_cwd (d : String) (body : M α) : M α := fun s =>
  let cur_dir := s.cwd
  let r := body { s with cwd := d }
  (r.1, { r.2 with cwd := cur_dir })

/-- Model of shutil.copy2(src, dst) onto a file destination: read the
source file (FileNotFoundError when there is none), require the
destination parent directory, write the destination overwriting any
previous entry, and record the copy on the trace. -/
def copy2 (src dst : String) : M Unit := fun s =>
  match s.fs.getFile src with
  | none => (Except.error (PyErr.fileNotFound src), s)
  | some c =>
    if s.fs.isDir (dirname dst) then
      (Except.ok (),
        { s with fs := s.fs.set dst (Node.file c),
                 copies := (src, dst) :: s.copies })
    else (Except.error (PyErr.fileNotFound dst), s)

/-- Model of subprocess.run(argv, check): record the invocation (argv and
the working directory it starts in), apply the behavior of the external
binary to the filesystem, and raise CalledProcessError exactly when check
is set and the exit status is non-zero. -/
def runProc (beh : String → FS → Int × FS) (argv : List String) (check : Bool) :
    M Unit := fun s =>
  let s1 : Sys := { s with procs := (argv, s.cwd) :: s.procs }
  let r := beh s1.cwd s1.fs
  let s2 : Sys := { s1 with fs := r.2 }
  if check && !(r.1 == 0) then (Except.error (PyErr.calledProcessError r.1), s2)
  else (Except.ok (), s2)

/-- Behaviors of the external binaries the build invokes through
subprocess.run: latexmk and inotifywait.  Each receives its argv, the
working directory it is started in and the filesystem, and yields an exit
status and the new filesystem. -/
structure Exts where
  latexmk : List String → String → FS → Int × FS
  inotifywait : List String → String → FS → Int × FS

/-- The source path that the pinned command rsync -av maps an entry of the
tree rooted at src to inside bld: the root itself maps to the target root,
an entry below the root maps to the same relative path below the target
root, anything else is not transferred. -/
def rsyncTarget (src bld p : String) : Option String :=
  if p == src then some bld
  else
    match stripLead (src ++ "/").toList p.toList with
    | some rel => some (pathJoin bld (String.mk rel))
    | none => none

/-- Apply the rsync transfer for the listed entries in order, setting each
transferred entry at its target path. -/
def applyMirror (src bld : String) : List (String × Node) → FS → FS
  | [], acc => acc
  | e :: rest, acc =>
    applyMirror src bld rest
      (match rsyncTarget src bld e.1 with
       | some t => acc.set t e.2
       | none => acc)

/-- The filesystem effect of the pinned command
run(["rsync", "-av", src + "/", bld]): every entry of the tree rooted at
src is copied to the corresponding path under bld, overwriting what is
there; entries that are not part of the source tree, in particular entries
present only under bld, are not touched.  No delete option is passed, so
nothing is pruned. -/
def rsyncMirror (src bld : String) (fs : FS) : FS :=
  applyMirror src bld fs.entries fs

/-- Behavior of the rsync binary for the pinned invocation: exit status 0
and the mirror effect on the filesystem. -/
def rsyncRun (src bld : String) : String → FS → Int × FS :=
  fun _ fs => (0, rsyncMirror src bld fs)

/-- A Python value that is either a string or a list of strings.  The CLI
layer passes the parsed option list positionally into the pdf_filename
parameter of build_document, so that parameter can hold either shape at
runtime. -/
inductive StrOrList where
  | pyStr (s : String)
  | pyList (l : List String)
deriving DecidableEq

/-- Python x + t where x is a str or a list and t a str: list + str raises
TypeError. -/
def pyAddStr (x : StrOrList) (t : String) : M String := fun s =>
  match x with
  | StrOrList.pyStr v => (Except.ok (v ++ t), s)
  | StrOrList.pyList _ => (Except.error PyErr.typeError, s)

/-- Python try/except CalledProcessError: run the body; a raised
CalledProcessError is handed to the handler, every other exception
propagates. -/
def tryCalledProcessError (body : M α) (handler : Int → M α) : M α := fun s =>
  match body s with
  | (Except.error (PyErr.calledProcessError c), s') => handler c s'
  | r => r

/-- TexBuild.tex_root: the stored project root. -/
def tex_root (root : String) : String := root

/-- TexBuild.tex_src: os.path.join(tex_root, "src"). -/
def tex_src (root : String) : String := pathJoin (tex_root root) "src"

/-- TexBuild.tex_bld: os.path.join(tex_root, "bld"). -/
def tex_bld (root : String) : String := pathJoin (tex_root root) "bld"

/-- TexBuild.tex_dst: os.path.join(tex_root, "dst"). -/
def tex_dst (root : String) : String := pathJoin (tex_root root) "dst"

/-- TexBuild.init_dirs. -/
def init_dirs (root : String) : M Unit := do
  let _ ← makedir (tex_root root) true true
  let _ ← makedir (tex_src root) true false
  M.pure ()

/-- TexBuild.copy_build_files: announce, create bld when missing, then run
the pinned rsync command (without check, so its exit status is ignored). -/
def copy_build_files (root : String) : M Unit := do
  let rsync_command := ["rsync", "-av", tex_src root ++ "/", tex_bld root]
  print_frame "COPYING BUILD FILES TO BLD DIRECTORY" (Bcolors.INFOBLUE ++ Bcolors.BOLD)
  let _ ← makedir (tex_bld root) true false
  runProc (rsyncRun (tex_src root) (tex_bld root)) rsync_command false

/-- TexBuild._run_latexmk_in_bld_dir: build the latexmk command line (the
fixed options, the document name with the .tex extension appended, then
the caller-supplied options last) and run it with check=True inside
having_cwd(tex_bld). -/
def _run_latexmk_in_bld_dir (ext : Exts) (root : String)
    (tex_filename : String) (latexmk_opts : List String) : M Unit :=
  let build_command :=
    ["latexmk", "-halt-on-error", "-interaction=nonstopmode",
     "-pdflatex=lualatex", "-pdf", tex_filename ++ ".tex"] ++ latexmk_opts
  having_cwd (tex_bld root) (do
    print_frame "BUILDING DOCUMENT" (Bcolors.INFOBLUE ++ Bcolors.BOLD)
    runProc (ext.latexmk build_command) build_command true)

/-- TexBuild._copy_to_dst: compute the artifact path in bld and the output
path in dst (pdf_filename + ".pdf" is Python string concatenation and
raises TypeError when pdf_filename is a list), create dst when missing,
then copy2 the artifact. -/
def _copy_to_dst (root : String) (tex_filename : String)
    (pdf_filename : StrOrList) : M Unit := do
  let document_pdf_bld := pathJoin (tex_bld root) (tex_filename ++ ".pdf")
  let pdfName ← pyAddStr pdf_filename ".pdf"
  let document_pdf_dst := pathJoin (tex_dst root) pdfName
  let _ ← makedir (tex_dst root) true false
  copy2 document_pdf_bld document_pdf_dst

/-- TexBuild.build_document: default the option list to empty and the
output name to the document name, then run sync, compile and publish in a
try block; a CalledProcessError is caught and reported as a False result,
every other exception propagates to the caller. -/
def build_document (ext : Exts) (root : String) (tex_filename : String)
    (pdf_filename : Option StrOrList) (latexmk_opts : Option (List String)) :
    M Bool :=
  let latexmk_opts := default latexmk_opts []
  let pdf_filename := default pdf_filename (StrOrList.pyStr tex_filename)
  tryCalledProcessError
    (do
      copy_build_files root
      _run_latexmk_in_bld_dir ext root tex_filename latexmk_opts
      _copy_to_dst root tex_filename pdf_filename
      print_markup "BUILD SUCCESSFUL" Bcolors.OKGREEN "\n\n"
      M.pure true)
    (fun _ => do
      print_markup "BUILD FAILED" Bcolors.FAIL "\n\n"
      M.pure false)

/-- TexBuild.wait_for_code_changes: announce and block on inotifywait. -/
def wait_for_code_changes (ext : Exts) (root : String) : M Unit := do
  let watch_command :=
    ["inotifywait", "-e", "modify,create,delete,attrib", "-r", tex_src root]
  print_frame "WATCHING SRC DIRECTORY FOR CHANGES" (Bcolors.INFOBLUE ++ Bcolors.BOLD)
  runProc (ext.inotifywait watch_command) watch_command false

/-- TexBuild.loop, for a bounded number of iterations of the unbounded
while True loop: build, then wait for a change, repeatedly.  The
KeyboardInterrupt exit of the source is an external signal outside the
model. -/
def loopFuel (ext : Exts) (root : String) (tex_filename : String)
    (pdf_filename : Option StrOrList) (latexmk_opts : Option (List String)) :
    Nat → M Unit
  | 0 => M.pure ()
  | Nat.succ n => do
    let _ ← build_document ext root tex_filename pdf_filename latexmk_opts
    wait_for_code_changes ext root
    loopFuel ext root tex_filename pdf_filename latexmk_opts n

/-- Is p the given root or a path below it. -/
def underPath (root p : String) : Bool :=
  p == root || strStartsWith p (root ++ "/")

/-- Is p strictly above q, that is, q lies below p. -/
def strictAbove (p q : String) : Bool := strStartsWith q (p ++ "/")

/-- Does the entry at p survive shutil.rmtree with the given set of
undeletable paths: either its own removal fails, or it is a directory kept
alive because some entry below it fails to be removed (os.rmdir on a
non-empty directory fails and is reported too). -/
def survives (undel : String → Bool) (fs : FS) (p : String) : Bool :=
  undel p || fs.entries.any (fun e => strictAbove p e.1 && undel e.1)

/-- Model of shutil.rmtree(root, onerror): every entry of the tree rooted
at root whose removal succeeds is deleted; each surviving entry is
reported as a failure (path together with the underlying error) and the
traversal continues through all remaining entries instead of aborting. -/
def rmtreeFs (undel : String → Bool) (fs : FS) (root : String) :
    FS × List (String × String) :=
  (⟨fs.entries.filter (fun e => !(underPath root e.1) || survives undel fs e.1)⟩,
   (fs.entries.filter (fun e => underPath root e.1 && survives undel fs e.1)).map
     (fun e => (e.1, if undel e.1 then "PermissionError" else "OSError")))

/-- The filesystem effect and the failure list of shutil.rmtree as a
computation. -/
def shutil_rmtree (undel : String → Bool) (p : String) :
    M (List (String × String)) := fun s =>
  let r := rmtreeFs undel s.fs p
  (Except.ok r.2, { s with fs := r.1 })

/-- The console reports that TexBuild.clean's report_error callback makes
for each failure: the path line, the repr of the failing delete function,
and the underlying error. -/
def reportFailPrints : List (String × String) → M Unit
  | [] => M.pure ()
  | e :: rest => do
    pyPrint ("(error) got error removing: " ++ e.1) "\n"
    pyPrint "<delete function>" "\n"
    pyPrint e.2 "\n"
    reportFailPrints rest

/-- TexBuild.clean: announce; when bld exists, shutil.rmtree it with the
report_error callback, which prints each failure and flips the
encountered_errors flag; otherwise report it already removed.  Finish with
the warning message when errors were encountered and the success message
otherwise.  Nothing is returned. -/
def clean (undel : String → Bool) (root : String) : M Unit := do
  print_frame "CLEANING BLD DIRECTORY" (Bcolors.INFOBLUE ++ Bcolors.BOLD)
  let ex ← os_path_exists (tex_bld root)
  let encountered_errors ←
    if ex then do
      let fails ← shutil_rmtree undel (tex_bld root)
      reportFailPrints fails
      M.pure (!fails.isEmpty)
    else do
      pyPrint (tex_bld root ++ " already removed") "\n"
      M.pure false
  if encountered_errors then
    print_markup "CLEANUP FINISHED (errors encountered)" Bcolors.WARNING "\n"
  else
    print_markup "CLEANUP FINISHED" Bcolors.OKGREEN "\n"

/-- The parsed command of the argparse Namespace: the subcommand together
with the arguments its subparser provides.  For build and loop these are
the positional document and the optional latexmk-opts list (None when the
flag is absent). -/
inductive Cmd where
  | copy
  | build (document : String) (latexmk_opts : Option (List String))
  | loop (document : String) (latexmk_opts : Option (List String))
  | clean
deriving DecidableEq

/-- The argparse Namespace handed to run_args: the project root and the
parsed subcommand. -/
structure Namespace where
  root : String
  cmd : Cmd

/-- run_args from build.py.  For build and loop the source calls
tb.build_document(ns.document, ns.latexmk_opts) with two positional
arguments, so ns.latexmk_opts is bound to the second parameter
pdf_filename (as a Python list when the flag was given) and the
latexmk_opts parameter is left at its None default.  The unbounded loop
subcommand is modelled with the given iteration fuel. -/
def run_args (ext : Exts) (undel : String → Bool) (fuel : Nat)
    (ns : Namespace) : M Unit :=
  match ns.cmd with
  | Cmd.copy => copy_build_files ns.root
  | Cmd.build document latexmk_opts => do
    let _ ← build_document ext ns.root document
      (latexmk_opts.map StrOrList.pyList) none
    M.pure ()
  | Cmd.loop document latexmk_opts =>
    loopFuel ext ns.root document (latexmk_opts.map StrOrList.pyList) none fuel
  | Cmd.clean => clean undel ns.root

/-- The filesystem after makedir(p, exists_ok=True): unchanged when an
entry already exists at p, otherwise the directory is added. -/
def mkdirFs (fs : FS) (p : String) : FS :=
  if (fs.find p).isSome then fs else fs.set p Node.dir

/-- The condition under which makedir(p, exists_ok=True, recursive=False)
succeeds: an entry already exists at p (FileExistsError swallowed), or the
parent is a directory so p is created. -/
def makedirOkCond (fs : FS) (p : String) : Prop :=
  (fs.find p).isSome = true ∨ fs.isDir (dirname p) = true

/-- The condition under which makedir(d, exists_ok=True) leaves a
directory at d: d already is a directory, or d is absent and its parent is
a directory. -/
def dstReady (fs : FS) (d : String) : Prop :=
  fs.isDir d = true ∨ (fs.find d = none ∧ fs.isDir (dirname d) = true)

/-- A demonstration project tree: sources in proj/src, a stale build tree
in proj/bld with a locked file, and a previously published artifact in
proj/dst. -/
def fsDemo : FS := ⟨[("proj", Node.dir), ("proj/src", Node.dir),
  ("proj/src/main.tex", Node.file "tex source"), ("proj/bld", Node.dir),
  ("proj/bld/locked.aux", Node.file "locked"),
  ("proj/bld/other.aux", Node.file "stale"),
  ("proj/dst", Node.dir), ("proj/dst/main.pdf", Node.file "old artifact")]⟩

def sysDemo : Sys := ⟨fsDemo, "/home/user", [], [], []⟩

/-- Deletion failure oracle for the clean scenario: exactly the locked
file cannot be removed. -/
def undelDemo : String → Bool := fun p => p == "proj/bld/locked.aux"

/-- A compiler that always exits with status 1 and changes nothing. -/
def extFailStub : Exts := ⟨fun _ _ fs => (1, fs), fun _ _ fs => (0, fs)⟩

/-- A compiler that exits 0 without producing any file. -/
def extKeepStub : Exts := ⟨fun _ _ fs => (0, fs), fun _ _ fs => (0, fs)⟩

/-- A stub compiler that exits 0 and writes proj/bld/main.pdf, with
proj/dst kept a directory. -/
def extWriteStub : Exts :=
  ⟨fun _ _ fs => (0, (fs.set "proj/dst" Node.dir).set "proj/bld/main.pdf"
      (Node.file "fresh pdf")),
   fun _ _ fs => (0, fs)⟩

/-- A compiler that exits 0 but leaves no pdf file at the artifact path
(the entry is made a directory), with proj/dst kept a directory. -/
def extNoPdfStub : Exts :=
  ⟨fun _ _ fs => (0, (fs.set "proj/bld/main.pdf" Node.dir).set "proj/dst" Node.dir),
   fun _ _ fs => (0, fs)⟩

/-- The parsed command line of the scenario
texbuild proj build main --latexmk-opts -draftmode. -/
def nsDemo : Namespace := ⟨"proj", Cmd.build "main" (some ["-draftmode"])⟩

theorem M.bind_apply (m : M α) (f : α → M β) (s : Sys) :
    (m >>= f) s =
      match m s with
      | (Except.ok a, s') => f a s'
      | (Except.error e, s') => (Except.error e, s') := rfl

theorem M.pure_apply (a : α) (s : Sys) :
    (Pure.pure a : M α) s = (Except.ok a, s) := rfl

theorem find?_cons_key_pos (a : String × Node) (l : List (String × Node))
    (p : String) (h : (a.1 == p) = true) :
    List.find? (fun e => e.1 == p) (a :: l) = some a := by
  simp [List.find?_cons, h]

theorem find?_cons_key_neg (a : String × Node) (l : List (String × Node))
    (p : String) (h : (a.1 == p) = false) :
    List.find? (fun e => e.1 == p) (a :: l)
      = List.find? (fun e => e.1 == p) l := by
  simp [List.find?_cons, h]

theorem find?_filter_ne (l : List (String × Node)) (p q : String) (h : ¬ q = p) :
    (l.filter (fun e => !(e.1 == p))).find? (fun e => e.1 == q)
      = l.find? (fun e => e.1 == q) := by
  induction l with
  | nil => rfl
  | cons a l ih =>
    by_cases ha : a.1 = q
    · have hap : (a.1 == p) = false := by
        simp only [beq_eq_false_iff_ne, ne_eq, ha]
        exact h
      have haq : (a.1 == q) = true := by simp [ha]
      simp [List.filter_cons, hap, List.find?_cons_of_pos, haq]
    · have haq : (a.1 == q) = false := by simp [ha]
      by_cases hap : a.1 = p
      · rw [List.filter_cons_of_neg (by simp [hap]),
          List.find?_cons_of_neg _ (by simp [haq])]
        exact ih
      · rw [List.filter_cons_of_pos (by simp [hap]),
          List.find?_cons_of_neg _ (by simp [haq]),
          List.find?_cons_of_neg _ (by simp [haq])]
        exact ih

theorem FS.find_set (fs : FS) (p : String) (n : Node) (q : String) :
    (fs.set p n).find q = if q = p then some n else fs.find q := by
  by_cases h : q = p
  · subst h
    simp [FS.set, FS.find, List.find?_cons_of_pos]
  · simp only [FS.set, FS.find, if_neg h]
    have hpq : ((p, n).1 == q) = false := by
      simp only [beq_eq_false_iff_ne, ne_eq]
      exact fun hh => h hh.symm
    rw [List.find?_cons_of_neg _ (by simp [hpq]), find?_filter_ne _ _ _ h]

theorem FS.getFile_set_file (fs : FS) (p c : String) :
    (fs.set p (Node.file c)).getFile p = some c := by
  simp [FS.getFile, FS.find_set]

theorem FS.getFile_set_dir (fs : FS) (p : String) :
    (fs.set p Node.dir).getFile p = none := by
  simp [FS.getFile, FS.find_set]

theorem FS.getFile_set_ne (fs : FS) (p : String) (n : Node) (q : String)
    (h : ¬ q = p) : (fs.set p n).getFile q = fs.getFile q := by
  simp [FS.getFile, FS.find_set, h]

theorem FS.isDir_set_dir (fs : FS) (p : String) :
    (fs.set p Node.dir).isDir p = true := by
  simp [FS.isDir, FS.find_set]

theorem FS.isDir_set_ne (fs : FS) (p : String) (n : Node) (q : String)
    (h : ¬ q = p) : (fs.set p n).isDir q = fs.isDir q := by
  simp [FS.isDir, FS.find_set, h]

theorem FS.find_isSome_of_isDir (fs : FS) (p : String) (h : fs.isDir p = true) :
    (fs.find p).isSome = true := by
  unfold FS.isDir at h
  cases hf : fs.find p with
  | none => rw [hf] at h; simp at h
  | some n => simp

theorem FS.find_filter_key (l : List (String × Node)) (f : String → Bool)
    (p : String) :
    (FS.mk (l.filter (fun e => f e.1))).find p
      = if f p then (FS.mk l).find p else none := by
  induction l with
  | nil => simp [FS.find]
  | cons a l ih =>
    simp only [FS.find] at ih ⊢
    by_cases hfa : f a.1
    · have hstep : List.filter (fun e => f e.1) (a :: l)
          = a :: List.filter (fun e => f e.1) l := by
        simp [List.filter_cons, hfa]
      rw [hstep]
      by_cases hap : a.1 = p
      · have hb : (a.1 == p) = true := by simp [hap]
        rw [find?_cons_key_pos _ _ _ hb, find?_cons_key_pos _ _ _ hb,
          if_pos (hap ▸ hfa)]
      · rw [find?_cons_key_neg _ _ _ (by simp [hap]),
          find?_cons_key_neg _ _ _ (by simp [hap])]
        exact ih
    · have hfa' : f a.1 = false := by
        cases hv : f a.1 with
        | false => rfl
        | true => exact absurd hv hfa
      rw [List.filter_cons_of_neg (by simp [hfa']), ih]
      by_cases hfp : f p
      · rw [if_pos hfp, if_pos hfp]
        have hap : ¬ a.1 = p := by
          intro hh
          rw [hh, hfp] at hfa'
          cases hfa'
        rw [find?_cons_key_neg _ _ _ (by simp [hap])]
      · rw [if_neg hfp, if_neg hfp]

theorem os_path_exists_run (p : String) (s : Sys) :
    os_path_exists p s = (Except.ok (s.fs.find p).isSome, s) := rfl

theorem print_markup_run (txt m e : String) (s : Sys) :
    print_markup txt m e s
      = (Except.ok (), Sys.mk s.fs s.cwd ((m ++ txt ++ Bcolors.ENDC ++ e) :: s.out)
          s.procs s.copies) := rfl

theorem print_frame_run (txt m : String) (s : Sys) :
    ∃ o, print_frame txt m s
      = (Except.ok (), Sys.mk s.fs s.cwd o s.procs s.copies) :=
  ⟨_, rfl⟩

theorem runProc_run (beh : String → FS → Int × FS) (argv : List String)
    (check : Bool) (s : Sys) :
    runProc beh argv check s
      = (if check && !((beh s.cwd s.fs).1 == 0) then
           (Except.error (PyErr.calledProcessError (beh s.cwd s.fs).1),
            Sys.mk (beh s.cwd s.fs).2 s.cwd s.out ((argv, s.cwd) :: s.procs)
              s.copies)
         else
           (Except.ok (),
            Sys.mk (beh s.cwd s.fs).2 s.cwd s.out ((argv, s.cwd) :: s.procs)
              s.copies)) := by
  unfold runProc
  rfl

theorem makedir_exists_ok_run (p : String) (s : Sys) (h : makedirOkCond s.fs p) :
    makedir p true false s
      = (Except.ok p, Sys.mk (mkdirFs s.fs p) s.cwd s.out s.procs s.copies) := by
  by_cases hs : (s.fs.find p).isSome
  · simp [makedir, os_mkdir, mkdirFs, hs]
  · have hd : s.fs.isDir (dirname p) = true := by
      rcases h with h | h
      · exact absurd h hs
      · exact h
    simp [makedir, os_mkdir, mkdirFs, hs, hd]

theorem makedirOkCond_of_dstReady (fs : FS) (d : String) (h : dstReady fs d) :
    makedirOkCond fs d := by
  rcases h with h | ⟨_, h2⟩
  · exact Or.inl (FS.find_isSome_of_isDir fs d h)
  · exact Or.inr h2

theorem mkdirFs_isDir_of_dstReady (fs : FS) (d : String) (h : dstReady fs d) :
    (mkdirFs fs d).isDir d = true := by
  rcases h with h | ⟨h1, _⟩
  · have hs := FS.find_isSome_of_isDir fs d h
    simp [mkdirFs, hs, h]
  · have hs : (fs.find d).isSome = false := by simp [h1]
    simp [mkdirFs, hs, FS.isDir_set_dir]

theorem mkdirFs_getFile_ne (fs : FS) (d q : String) (h : ¬ q = d) :
    (mkdirFs fs d).getFile q = fs.getFile q := by
  unfold mkdirFs
  by_cases hs : (fs.find d).isSome
  · simp [hs]
  · simp [hs, FS.getFile_set_ne _ _ _ _ h]

theorem copy2_run_ok (src dst : String) (s : Sys) (c : String)
    (hsrc : s.fs.getFile src = some c) (hdst : s.fs.isDir (dirname dst) = true) :
    copy2 src dst s
      = (Except.ok (), Sys.mk (s.fs.set dst (Node.file c)) s.cwd s.out s.procs
          ((src, dst) :: s.copies)) := by
  simp [copy2, hsrc, hdst]

theorem copy2_run_missing (src dst : String) (s : Sys)
    (hsrc : s.fs.getFile src = none) :
    copy2 src dst s = (Except.error (PyErr.fileNotFound src), s) := by
  simp [copy2, hsrc]

theorem default_some (v d : α) : default (some v) d = v := rfl

theorem default_none (d : α) : default (none : Option α) d = d := rfl

theorem copy_build_files_run (root : String) (s : Sys)
    (h : makedirOkCond s.fs (tex_bld root)) :
    ∃ o, copy_build_files root s
      = (Except.ok (),
         Sys.mk
           (rsyncMirror (tex_src root) (tex_bld root) (mkdirFs s.fs (tex_bld root)))
           s.cwd o
           ((["rsync", "-av", tex_src root ++ "/", tex_bld root], s.cwd) :: s.procs)
           s.copies) := by
  obtain ⟨o1, h1⟩ := print_frame_run "COPYING BUILD FILES TO BLD DIRECTORY"
    (Bcolors.INFOBLUE ++ Bcolors.BOLD) s
  have h2 := makedir_exists_ok_run (tex_bld root)
    (Sys.mk s.fs s.cwd o1 s.procs s.copies) h
  refine ⟨o1, ?_⟩
  simp only [copy_build_files, M.bind_apply, h1, h2, runProc_run, rsyncRun,
    Bool.false_and, Bool.false_eq_true, if_false]

theorem run_latexmk_fail (ext : Exts) (root f : String) (opts : List String)
    (s : Sys)
    (hc : ¬ (ext.latexmk (["latexmk", "-halt-on-error", "-interaction=nonstopmode",
        "-pdflatex=lualatex", "-pdf", f ++ ".tex"] ++ opts) (tex_bld root) s.fs).1
        = 0) :
    ∃ o, _run_latexmk_in_bld_dir ext root f opts s
      = (Except.error (PyErr.calledProcessError
           (ext.latexmk (["latexmk", "-halt-on-error", "-interaction=nonstopmode",
             "-pdflatex=lualatex", "-pdf", f ++ ".tex"] ++ opts) (tex_bld root)
             s.fs).1),
         Sys.mk
           (ext.latexmk (["latexmk", "-halt-on-error", "-interaction=nonstopmode",
             "-pdflatex=lualatex", "-pdf", f ++ ".tex"] ++ opts) (tex_bld root)
             s.fs).2
           s.cwd o
           ((["latexmk", "-halt-on-error", "-interaction=nonstopmode",
              "-pdflatex=lualatex", "-pdf", f ++ ".tex"] ++ opts, tex_bld root)
             :: s.procs)
           s.copies) := by
  obtain ⟨o1, h1⟩ := print_frame_run "BUILDING DOCUMENT"
    (Bcolors.INFOBLUE ++ Bcolors.BOLD)
    (Sys.mk s.fs (tex_bld root) s.out s.procs s.copies)
  have hcb : ((ext.latexmk (["latexmk", "-halt-on-error",
      "-interaction=nonstopmode", "-pdflatex=lualatex", "-pdf", f ++ ".tex"]
      ++ opts) (tex_bld root) s.fs).1 == 0) = false := by
    simp only [beq_eq_false_iff_ne, ne_eq]
    exact hc
  refine ⟨o1, ?_⟩
  simp only [_run_latexmk_in_bld_dir, having_cwd, M.bind_apply, h1, runProc_run,
    hcb, Bool.true_and, Bool.not_false, if_true]

theorem run_latexmk_ok (ext : Exts) (root f : String) (opts : List String)
    (s : Sys)
    (hc : (ext.latexmk (["latexmk", "-halt-on-error", "-interaction=nonstopmode",
        "-pdflatex=lualatex", "-pdf", f ++ ".tex"] ++ opts) (tex_bld root) s.fs).1
        = 0) :
    ∃ o, _run_latexmk_in_bld_dir ext root f opts s
      = (Except.ok (),
         Sys.mk
           (ext.latexmk (["latexmk", "-halt-on-error", "-interaction=nonstopmode",
             "-pdflatex=lualatex", "-pdf", f ++ ".tex"] ++ opts) (tex_bld root)
             s.fs).2
           s.cwd o
           ((["latexmk", "-halt-on-error", "-interaction=nonstopmode",
              "-pdflatex=lualatex", "-pdf", f ++ ".tex"] ++ opts, tex_bld root)
             :: s.procs)
           s.copies) := by
  obtain ⟨o1, h1⟩ := print_frame_run "BUILDING DOCUMENT"
    (Bcolors.INFOBLUE ++ Bcolors.BOLD)
    (Sys.mk s.fs (tex_bld root) s.out s.procs s.copies)
  refine ⟨o1, ?_⟩
  simp only [_run_latexmk_in_bld_dir, having_cwd, M.bind_apply, h1, runProc_run,
    hc, beq_self_eq_true, Bool.not_true, Bool.and_false, Bool.false_eq_true,
    if_false]

theorem copy_to_dst_run_ok (root f outName c : String) (s : Sys)
    (hd : dstReady s.fs (tex_dst root))
    (hsrc : s.fs.getFile (pathJoin (tex_bld root) (f ++ ".pdf")) = some c)
    (hne : ¬ pathJoin (tex_bld root) (f ++ ".pdf") = tex_dst root)
    (hdir : dirname (pathJoin (tex_dst root) (outName ++ ".pdf")) = tex_dst root) :
    _copy_to_dst root f (StrOrList.pyStr outName) s
      = (Except.ok (),
         Sys.mk ((mkdirFs s.fs (tex_dst root)).set
             (pathJoin (tex_dst root) (outName ++ ".pdf")) (Node.file c))
           s.cwd s.out s.procs
           ((pathJoin (tex_bld root) (f ++ ".pdf"),
             pathJoin (tex_dst root) (outName ++ ".pdf")) :: s.copies)) := by
  have h2 := makedir_exists_ok_run (tex_dst root) s
    (makedirOkCond_of_dstReady s.fs (tex_dst root) hd)
  have hsrc' : (Sys.mk (mkdirFs s.fs (tex_dst root)) s.cwd s.out s.procs
      s.copies).fs.getFile (pathJoin (tex_bld root) (f ++ ".pdf")) = some c := by
    simpa [mkdirFs_getFile_ne s.fs (tex_dst root) _ hne] using hsrc
  have hdst' : (Sys.mk (mkdirFs s.fs (tex_dst root)) s.cwd s.out s.procs
      s.copies).fs.isDir
        (dirname (pathJoin (tex_dst root) (outName ++ ".pdf"))) = true := by
    rw [hdir]
    exact mkdirFs_isDir_of_dstReady s.fs (tex_dst root) hd
  have h3 := copy2_run_ok (pathJoin (tex_bld root) (f ++ ".pdf"))
    (pathJoin (tex_dst root) (outName ++ ".pdf"))
    (Sys.mk (mkdirFs s.fs (tex_dst root)) s.cwd s.out s.procs s.copies) c
    hsrc' hdst'
  simp only [_copy_to_dst, M.bind_apply, pyAddStr, h2, h3]

theorem copy_to_dst_run_missing (root f outName : String) (s : Sys)
    (hd : dstReady s.fs (tex_dst root))
    (hsrc : s.fs.getFile (pathJoin (tex_bld root) (f ++ ".pdf")) = none)
    (hne : ¬ pathJoin (tex_bld root) (f ++ ".pdf") = tex_dst root) :
    _copy_to_dst root f (StrOrList.pyStr outName) s
      = (Except.error (PyErr.fileNotFound (pathJoin (tex_bld root) (f ++ ".pdf"))),
         Sys.mk (mkdirFs s.fs (tex_dst root)) s.cwd s.out s.procs s.copies) := by
  have h2 := makedir_exists_ok_run (tex_dst root) s
    (makedirOkCond_of_dstReady s.fs (tex_dst root) hd)
  have hsrc' : (Sys.mk (mkdirFs s.fs (tex_dst root)) s.cwd s.out s.procs
      s.copies).fs.getFile (pathJoin (tex_bld root) (f ++ ".pdf")) = none := by
    simpa [mkdirFs_getFile_ne s.fs (tex_dst root) _ hne] using hsrc
  have h3 := copy2_run_missing (pathJoin (tex_bld root) (f ++ ".pdf"))
    (pathJoin (tex_dst root) (outName ++ ".pdf"))
    (Sys.mk (mkdirFs s.fs (tex_dst root)) s.cwd s.out s.procs s.copies) hsrc'
  simp only [_copy_to_dst, M.bind_apply, pyAddStr, h2, h3]

theorem applyMirror_find_preserved (src bld p : String)
    (es : List (String × Node)) (acc : FS)
    (h : ∀ e ∈ es, rsyncTarget src bld e.1 ≠ some p) :
    (applyMirror src bld es acc).find p = acc.find p := by
  induction es generalizing acc with
  | nil => rfl
  | cons a rest ih =>
    have ha := h a (List.mem_cons_self a rest)
    have hrest : ∀ e ∈ rest, rsyncTarget src bld e.1 ≠ some p :=
      fun e he => h e (List.mem_cons_of_mem a he)
    cases hT : rsyncTarget src bld a.1 with
    | none =>
      simp only [applyMirror, hT]
      exact ih acc hrest
    | some t =>
      have htp : ¬ p = t := by
        intro hpt
        exact ha (by rw [hT, hpt])
      simp only [applyMirror, hT]
      rw [ih _ hrest, FS.find_set, if_neg htp]

theorem reportFailPrints_run (l : List (String × String)) (s : Sys) :
    ∃ o, reportFailPrints l s
      = (Except.ok (), Sys.mk s.fs s.cwd o s.procs s.copies) := by
  induction l generalizing s with
  | nil => exact ⟨s.out, rfl⟩
  | cons a rest ih =>
    obtain ⟨o, ho⟩ := ih (Sys.mk s.fs s.cwd
      ((a.2 ++ "\n") :: ("<delete function>" ++ "\n")
        :: (("(error) got error removing: " ++ a.1) ++ "\n") :: s.out)
      s.procs s.copies)
    refine ⟨o, ?_⟩
    simp only [reportFailPrints, M.bind_apply, pyPrint, ho]

theorem clean_run (undel : String → Bool) (root : String) (s : Sys)
    (hbld : (s.fs.find (tex_bld root)).isSome = true) :
    ∃ o, clean undel root s
      = (Except.ok (),
         Sys.mk (rmtreeFs undel s.fs (tex_bld root)).1 s.cwd
           ((if (rmtreeFs undel s.fs (tex_bld root)).2.isEmpty then
               Bcolors.OKGREEN ++ "CLEANUP FINISHED" ++ Bcolors.ENDC ++ "\n"
             else
               Bcolors.WARNING ++ "CLEANUP FINISHED (errors encountered)"
                 ++ Bcolors.ENDC ++ "\n") :: o)
           s.procs s.copies) := by
  obtain ⟨o1, h1⟩ := print_frame_run "CLEANING BLD DIRECTORY"
    (Bcolors.INFOBLUE ++ Bcolors.BOLD) s
  obtain ⟨o2, h2⟩ := reportFailPrints_run (rmtreeFs undel s.fs (tex_bld root)).2
    (Sys.mk (rmtreeFs undel s.fs (tex_bld root)).1 s.cwd o1 s.procs s.copies)
  refine ⟨o2, ?_⟩
  by_cases hfe : (rmtreeFs undel s.fs (tex_bld root)).2.isEmpty
  · simp only [clean, M.bind_apply, h1, os_path_exists_run, hbld, if_true,
      shutil_rmtree, h2, M.pure, M.pure_apply, hfe, Bool.not_true,
      Bool.false_eq_true, if_false, print_markup_run]
  · have hfe' : (rmtreeFs undel s.fs (tex_bld root)).2.isEmpty = false := by
      cases hv : (rmtreeFs undel s.fs (tex_bld root)).2.isEmpty with
      | false => rfl
      | true => exact absurd hv hfe
    simp only [clean, M.bind_apply, h1, os_path_exists_run, hbld, if_true,
      shutil_rmtree, h2, M.pure, M.pure_apply, hfe', Bool.not_false,
      Bool.false_eq_true, if_false, if_true, print_markup_run]

/-- C7: having_cwd restores the prior working directory on every exit
path: for every body, whether it returns normally or raises, after the
scope exits the tracked working directory equals the one observed at
entry, and the body's outcome (value or exception) is passed through
unchanged. -/
theorem C7_having_cwd_restores_cwd {α : Type} (d : String) (body : M α)
    (s : Sys) :
    ((having_cwd d body) s).2.cwd = s.cwd ∧
    ((having_cwd d body) s).1 = (body (Sys.mk s.fs d s.out s.procs s.copies)).1 :=
  ⟨rfl, rfl⟩

/-- C6: for every document name and option list, the compiler command line
recorded for the external invocation is exactly the fixed base argument
set (halt-on-error, non-interactive, the lualatex engine, pdf output),
then the document name with the .tex extension appended, then the
caller-supplied extra options last, and the invocation starts in the
build directory. -/
theorem C6_latexmk_command_line (ext : Exts) (root f : String)
    (opts : List String) (s : Sys) :
    ((_run_latexmk_in_bld_dir ext root f opts) s).2.procs
      = (["latexmk", "-halt-on-error", "-interaction=nonstopmode",
          "-pdflatex=lualatex", "-pdf"] ++ [f ++ ".tex"] ++ opts,
         tex_bld root) :: s.procs := by
  by_cases hz : (ext.latexmk (["latexmk", "-halt-on-error",
      "-interaction=nonstopmode", "-pdflatex=lualatex", "-pdf", f ++ ".tex"]
      ++ opts) (tex_bld root) s.fs).1 = 0
  · obtain ⟨o, ho⟩ := run_latexmk_ok ext root f opts s hz
    rw [ho]
    simp
  · obtain ⟨o, ho⟩ := run_latexmk_fail ext root f opts s hz
    rw [ho]
    simp

/-- C9: the path resolver yields exactly the joins R/src, R/bld and R/dst
by pure string concatenation, for every nonempty project root that does
not already end in a separator, relative or absolute alike; there is no
validation, no filesystem access and no normalization. -/
theorem C9_path_resolver_is_plain_join (R : String) (h1 : ¬ R = "")
    (h2 : strLastIsSlash R = false) :
    tex_src R = R ++ "/src" ∧ tex_bld R = R ++ "/bld" ∧ tex_dst R = R ++ "/dst" := by
  have hb : (R == "") = false := by
    simp only [beq_eq_false_iff_ne, ne_eq]
    exact h1
  refine ⟨?_, ?_, ?_⟩
  · show pathJoin R "src" = R ++ "/src"
    rw [pathJoin, if_neg (by decide), hb, h2]
    simp only [Bool.or_self, Bool.false_eq_true, if_false]
    rw [String.append_assoc]
    have h : ("/" : String) ++ "src" = "/src" := by decide
    rw [h]
  · show pathJoin R "bld" = R ++ "/bld"
    rw [pathJoin, if_neg (by decide), hb, h2]
    simp only [Bool.or_self, Bool.false_eq_true, if_false]
    rw [String.append_assoc]
    have h : ("/" : String) ++ "bld" = "/bld" := by decide
    rw [h]
  · show pathJoin R "dst" = R ++ "/dst"
    rw [pathJoin, if_neg (by decide), hb, h2]
    simp only [Bool.or_self, Bool.false_eq_true, if_false]
    rw [String.append_assoc]
    have h : ("/" : String) ++ "dst" = "/dst" := by decide
    rw [h]

/-- Witness for C9 at the absolute root /tmp/proj. -/
theorem C9_path_resolver_is_plain_join_witness :
    (¬ "/tmp/proj" = "") ∧ strLastIsSlash "/tmp/proj" = false ∧
    (tex_src "/tmp/proj" = "/tmp/proj" ++ "/src" ∧
     tex_bld "/tmp/proj" = "/tmp/proj" ++ "/bld" ∧
     tex_dst "/tmp/proj" = "/tmp/proj" ++ "/dst") :=
  ⟨by decide, by decide,
   C9_path_resolver_is_plain_join "/tmp/proj" (by decide) (by decide)⟩

/-- C10: when a regular file already exists at the path, makedir with
exists_ok=True and recursive=False succeeds, returns the path, changes
nothing, and leaves no directory at the path: the FileExistsError of
os.mkdir is swallowed without checking that the existing entry is a
directory. -/
theorem C10_makedir_swallows_existing_file (p : String) (s : Sys)
    (h : s.fs.isFile p = true) :
    makedir p true false s = (Except.ok p, s) ∧ s.fs.isDir p = false := by
  have hfind : (s.fs.find p).isSome = true := by
    unfold FS.isFile at h
    cases hf : s.fs.find p with
    | none => rw [hf] at h; cases h
    | some n => simp
  constructor
  · rw [makedir_exists_ok_run p s (Or.inl hfind)]
    simp [mkdirFs, hfind]
  · unfold FS.isFile at h
    unfold FS.isDir
    cases hf : s.fs.find p with
    | none => rfl
    | some n =>
      cases n with
      | file c => rfl
      | dir => rw [hf] at h; cases h

/-- Witness for C10: a regular file exists at proj/dst/main.pdf. -/
theorem C10_makedir_swallows_existing_file_witness :
    sysDemo.fs.isFile "proj/dst/main.pdf" = true ∧
    (makedir "proj/dst/main.pdf" true false sysDemo
        = (Except.ok "proj/dst/main.pdf", sysDemo) ∧
     sysDemo.fs.isDir "proj/dst/main.pdf" = false) :=
  ⟨by decide, C10_makedir_swallows_existing_file "proj/dst/main.pdf" sysDemo
    (by decide)⟩

/-- C5: sync (copy_build_files) is additive-only: every entry present in
the filesystem whose path is not the rsync image of any present source
entry, in particular a file present only in the build directory, still
has exactly its old content after the sync completes; nothing is deleted
or pruned. -/
theorem C5_sync_is_additive_only (root p : String) (n : Node) (s : Sys)
    (hbld : (s.fs.find (tex_bld root)).isSome = true)
    (hp : s.fs.find p = some n)
    (hnosrc : ∀ e ∈ s.fs.entries,
      rsyncTarget (tex_src root) (tex_bld root) e.1 ≠ some p) :
    (copy_build_files root s).1 = Except.ok () ∧
    (copy_build_files root s).2.fs.find p = some n := by
  obtain ⟨o, ho⟩ := copy_build_files_run root s (Or.inl hbld)
  have hmk : mkdirFs s.fs (tex_bld root) = s.fs := by simp [mkdirFs, hbld]
  rw [ho]
  refine ⟨rfl, ?_⟩
  show (rsyncMirror (tex_src root) (tex_bld root)
    (mkdirFs s.fs (tex_bld root))).find p = some n
  rw [hmk]
  unfold rsyncMirror
  rw [applyMirror_find_preserved _ _ _ _ _ hnosrc]
  exact hp

/-- Witness for C5: proj/bld/other.aux exists only in the build directory
and survives the sync unchanged. -/
theorem C5_sync_is_additive_only_witness :
    (sysDemo.fs.find (tex_bld "proj")).isSome = true ∧
    sysDemo.fs.find "proj/bld/other.aux" = some (Node.file "stale") ∧
    (∀ e ∈ sysDemo.fs.entries,
      rsyncTarget (tex_src "proj") (tex_bld "proj") e.1
        ≠ some "proj/bld/other.aux") ∧
    ((copy_build_files "proj" sysDemo).1 = Except.ok () ∧
     (copy_build_files "proj" sysDemo).2.fs.find "proj/bld/other.aux"
       = some (Node.file "stale")) :=
  ⟨by decide, by decide, by decide,
   C5_sync_is_additive_only "proj" "proj/bld/other.aux" (Node.file "stale")
     sysDemo (by decide) (by decide) (by decide)⟩

/-- C1: when the compiler exits non-zero on every invocation, for every
document name, output name and option list, build_document returns the
failure value False (rather than raising), and the publish stage is never
invoked: the trace of file copies is unchanged, so no artifact is copied
into the destination directory. -/
theorem C1_compile_failure_returns_false_and_skips_publish (ext : Exts)
    (root f : String) (pdf : Option StrOrList) (opts : Option (List String))
    (s : Sys)
    (hmk : makedirOkCond s.fs (tex_bld root))
    (hfail : ∀ argv cwd fs, ¬ (ext.latexmk argv cwd fs).1 = 0) :
    (build_document ext root f pdf opts s).1 = Except.ok false ∧
    (build_document ext root f pdf opts s).2.copies = s.copies := by
  obtain ⟨o1, h1⟩ := copy_build_files_run root s hmk
  obtain ⟨o2, h2⟩ := run_latexmk_fail ext root f (default opts [])
    (Sys.mk
      (rsyncMirror (tex_src root) (tex_bld root) (mkdirFs s.fs (tex_bld root)))
      s.cwd o1
      ((["rsync", "-av", tex_src root ++ "/", tex_bld root], s.cwd) :: s.procs)
      s.copies)
    (hfail _ _ _)
  constructor
  · simp only [build_document, tryCalledProcessError, M.bind_apply, h1, h2,
      print_markup_run, M.pure, M.pure_apply]
  · simp only [build_document, tryCalledProcessError, M.bind_apply, h1, h2,
      print_markup_run, M.pure, M.pure_apply]

/-- Witness for C1 with the always-failing compiler stub on the
demonstration project. -/
theorem C1_compile_failure_returns_false_and_skips_publish_witness :
    makedirOkCond sysDemo.fs (tex_bld "proj") ∧
    (∀ argv cwd fs, ¬ (extFailStub.latexmk argv cwd fs).1 = 0) ∧
    ((build_document extFailStub "proj" "main" none none sysDemo).1
        = Except.ok false ∧
     (build_document extFailStub "proj" "main" none none sysDemo).2.copies
        = sysDemo.copies) :=
  ⟨Or.inl (by decide), fun _ _ _ => by show ¬ (1 : Int) = 0; decide,
   C1_compile_failure_returns_false_and_skips_publish extFailStub "proj" "main"
     none none sysDemo (Or.inl (by decide))
     (fun _ _ _ => by show ¬ (1 : Int) = 0; decide)⟩

/-- C2: when the compiler exits zero and leaves the artifact
bld/(document).pdf with some content, build_document copies it to
dst/(output).pdf, overwriting whatever was there, and returns the success
value True; and when the output name argument is omitted (None), the run
is identical to passing the document name as output name. -/
theorem C2_success_publishes_artifact_and_output_name_defaults (ext : Exts)
    (root f outName content : String) (opts : Option (List String)) (s : Sys)
    (hmk : makedirOkCond s.fs (tex_bld root))
    (hlm : ∀ argv cwd fs,
      (ext.latexmk argv cwd fs).1 = 0 ∧
      (ext.latexmk argv cwd fs).2.getFile (pathJoin (tex_bld root) (f ++ ".pdf"))
        = some content ∧
      dstReady (ext.latexmk argv cwd fs).2 (tex_dst root))
    (hne : ¬ pathJoin (tex_bld root) (f ++ ".pdf") = tex_dst root)
    (hdir : dirname (pathJoin (tex_dst root) (outName ++ ".pdf"))
        = tex_dst root) :
    (build_document ext root f (some (StrOrList.pyStr outName)) opts s).1
      = Except.ok true ∧
    (build_document ext root f (some (StrOrList.pyStr outName)) opts
        s).2.fs.getFile (pathJoin (tex_dst root) (outName ++ ".pdf"))
      = some content ∧
    (build_document ext root f (some (StrOrList.pyStr outName)) opts s).2.copies
      = (pathJoin (tex_bld root) (f ++ ".pdf"),
         pathJoin (tex_dst root) (outName ++ ".pdf")) :: s.copies ∧
    build_document ext root f none opts s
      = build_document ext root f (some (StrOrList.pyStr f)) opts s := by
  obtain ⟨o1, h1⟩ := copy_build_files_run root s hmk
  obtain ⟨o2, h2⟩ := run_latexmk_ok ext root f (default opts [])
    (Sys.mk
      (rsyncMirror (tex_src root) (tex_bld root) (mkdirFs s.fs (tex_bld root)))
      s.cwd o1
      ((["rsync", "-av", tex_src root ++ "/", tex_bld root], s.cwd) :: s.procs)
      s.copies)
    (hlm _ _ _).1
  have hrest := hlm (["latexmk", "-halt-on-error", "-interaction=nonstopmode",
    "-pdflatex=lualatex", "-pdf", f ++ ".tex"] ++ default opts []) (tex_bld root)
    (rsyncMirror (tex_src root) (tex_bld root) (mkdirFs s.fs (tex_bld root)))
  have h3 := copy_to_dst_run_ok root f outName content
    (Sys.mk
      (ext.latexmk (["latexmk", "-halt-on-error", "-interaction=nonstopmode",
        "-pdflatex=lualatex", "-pdf", f ++ ".tex"] ++ default opts [])
        (tex_bld root)
        (rsyncMirror (tex_src root) (tex_bld root)
          (mkdirFs s.fs (tex_bld root)))).2
      s.cwd o2
      ((["latexmk", "-halt-on-error", "-interaction=nonstopmode",
         "-pdflatex=lualatex", "-pdf", f ++ ".tex"] ++ default opts [],
        tex_bld root)
        :: ((["rsync", "-av", tex_src root ++ "/", tex_bld root], s.cwd)
          :: s.procs))
      s.copies)
    hrest.2.2 hrest.2.1 hne hdir
  refine ⟨?_, ?_, ?_, rfl⟩
  · simp only [build_document, tryCalledProcessError, M.bind_apply, default_some,
      h1, h2, h3, print_markup_run, M.pure, M.pure_apply]
  · simp only [build_document, tryCalledProcessError, M.bind_apply, default_some,
      h1, h2, h3, print_markup_run, M.pure, M.pure_apply]
    exact FS.getFile_set_file _ _ _
  · simp only [build_document, tryCalledProcessError, M.bind_apply, default_some,
      h1, h2, h3, print_markup_run, M.pure, M.pure_apply]

/-- Witness for C2: a stub compiler writes proj/bld/main.pdf; the old
artifact in proj/dst is overwritten and the build reports success. -/
theorem C2_success_publishes_artifact_and_output_name_defaults_witness :
    makedirOkCond sysDemo.fs (tex_bld "proj") ∧
    (∀ argv cwd fs,
      (extWriteStub.latexmk argv cwd fs).1 = 0 ∧
      (extWriteStub.latexmk argv cwd fs).2.getFile
        (pathJoin (tex_bld "proj") ("main" ++ ".pdf")) = some "fresh pdf" ∧
      dstReady (extWriteStub.latexmk argv cwd fs).2 (tex_dst "proj")) ∧
    (¬ pathJoin (tex_bld "proj") ("main" ++ ".pdf") = tex_dst "proj") ∧
    dirname (pathJoin (tex_dst "proj") ("main" ++ ".pdf")) = tex_dst "proj" ∧
    ((build_document extWriteStub "proj" "main" (some (StrOrList.pyStr "main"))
        none sysDemo).1 = Except.ok true ∧
     (build_document extWriteStub "proj" "main" (some (StrOrList.pyStr "main"))
        none sysDemo).2.fs.getFile
       (pathJoin (tex_dst "proj") ("main" ++ ".pdf")) = some "fresh pdf" ∧
     (build_document extWriteStub "proj" "main" (some (StrOrList.pyStr "main"))
        none sysDemo).2.copies
       = (pathJoin (tex_bld "proj") ("main" ++ ".pdf"),
          pathJoin (tex_dst "proj") ("main" ++ ".pdf")) :: sysDemo.copies ∧
     build_document extWriteStub "proj" "main" none none sysDemo
       = build_document extWriteStub "proj" "main"
           (some (StrOrList.pyStr "main")) none sysDemo) := by
  have hpathb : pathJoin (tex_bld "proj") ("main" ++ ".pdf")
      = "proj/bld/main.pdf" := by decide
  have hpathd : tex_dst "proj" = "proj/dst" := by decide
  have hlm : ∀ argv cwd (fs : FS),
      (extWriteStub.latexmk argv cwd fs).1 = 0 ∧
      (extWriteStub.latexmk argv cwd fs).2.getFile
        (pathJoin (tex_bld "proj") ("main" ++ ".pdf")) = some "fresh pdf" ∧
      dstReady (extWriteStub.latexmk argv cwd fs).2 (tex_dst "proj") := by
    intro argv cwd fs
    refine ⟨rfl, ?_, ?_⟩
    · rw [hpathb]
      exact FS.getFile_set_file _ _ _
    · rw [hpathd]
      left
      show ((fs.set "proj/dst" Node.dir).set "proj/bld/main.pdf"
          (Node.file "fresh pdf")).isDir "proj/dst" = true
      rw [FS.isDir_set_ne _ _ _ _ (by decide)]
      exact FS.isDir_set_dir _ _
  exact ⟨Or.inl (by decide), hlm, by decide, by decide,
    C2_success_publishes_artifact_and_output_name_defaults extWriteStub "proj"
      "main" "main" "fresh pdf" none sysDemo (Or.inl (by decide)) hlm
      (by decide) (by decide)⟩

/-- C4 counterexample: with a compiler that exits zero but produces no
artifact, build_document does not return a failed BuildResult; the
FileNotFoundError of the publish stage propagates to the caller as a
raised exception. -/
theorem C4_counterexample_publish_fault_is_raised_not_returned :
    (build_document extKeepStub "proj" "main" none none sysDemo).1
      = Except.error (PyErr.fileNotFound "proj/bld/main.pdf") ∧
    ¬ (build_document extKeepStub "proj" "main" none none sysDemo).1
      = Except.ok false := by
  constructor
  · decide
  · decide

/-- C4 amended: when the publish stage hits a missing artifact, the fault
propagates out of build_document as a raised FileNotFoundError naming the
missing artifact path, and no BuildResult is returned; the fault kind is
distinguishable from an ordinary compile failure, which is a
CalledProcessError caught and turned into a returned False. -/
theorem C4_publish_fault_raises_distinct_error (ext : Exts)
    (root f outName : String) (opts : Option (List String)) (s : Sys)
    (hmk : makedirOkCond s.fs (tex_bld root))
    (hlm : ∀ argv cwd fs,
      (ext.latexmk argv cwd fs).1 = 0 ∧
      (ext.latexmk argv cwd fs).2.getFile (pathJoin (tex_bld root) (f ++ ".pdf"))
        = none ∧
      dstReady (ext.latexmk argv cwd fs).2 (tex_dst root))
    (hne : ¬ pathJoin (tex_bld root) (f ++ ".pdf") = tex_dst root) :
    (build_document ext root f (some (StrOrList.pyStr outName)) opts s).1
      = Except.error (PyErr.fileNotFound (pathJoin (tex_bld root) (f ++ ".pdf")))
    ∧ (∀ c, PyErr.fileNotFound (pathJoin (tex_bld root) (f ++ ".pdf"))
        ≠ PyErr.calledProcessError c) := by
  obtain ⟨o1, h1⟩ := copy_build_files_run root s hmk
  obtain ⟨o2, h2⟩ := run_latexmk_ok ext root f (default opts [])
    (Sys.mk
      (rsyncMirror (tex_src root) (tex_bld root) (mkdirFs s.fs (tex_bld root)))
      s.cwd o1
      ((["rsync", "-av", tex_src root ++ "/", tex_bld root], s.cwd) :: s.procs)
      s.copies)
    (hlm _ _ _).1
  have hrest := hlm (["latexmk", "-halt-on-error", "-interaction=nonstopmode",
    "-pdflatex=lualatex", "-pdf", f ++ ".tex"] ++ default opts []) (tex_bld root)
    (rsyncMirror (tex_src root) (tex_bld root) (mkdirFs s.fs (tex_bld root)))
  have h3 := copy_to_dst_run_missing root f outName
    (Sys.mk
      (ext.latexmk (["latexmk", "-halt-on-error", "-interaction=nonstopmode",
        "-pdflatex=lualatex", "-pdf", f ++ ".tex"] ++ default opts [])
        (tex_bld root)
        (rsyncMirror (tex_src root) (tex_bld root)
          (mkdirFs s.fs (tex_bld root)))).2
      s.cwd o2
      ((["latexmk", "-halt-on-error", "-interaction=nonstopmode",
         "-pdflatex=lualatex", "-pdf", f ++ ".tex"] ++ default opts [],
        tex_bld root)
        :: ((["rsync", "-av", tex_src root ++ "/", tex_bld root], s.cwd)
          :: s.procs))
      s.copies)
    hrest.2.2 hrest.2.1 hne
  constructor
  · simp only [build_document, tryCalledProcessError, M.bind_apply, default_some,
      h1, h2, h3, print_markup_run, M.pure, M.pure_apply]
  · intro c h
    cases h

/-- Witness for the amended C4 with a stub compiler that exits zero but
leaves no pdf file at the artifact path. -/
theorem C4_publish_fault_raises_distinct_error_witness :
    makedirOkCond sysDemo.fs (tex_bld "proj") ∧
    (∀ argv cwd fs,
      (extNoPdfStub.latexmk argv cwd fs).1 = 0 ∧
      (extNoPdfStub.latexmk argv cwd fs).2.getFile
        (pathJoin (tex_bld "proj") ("main" ++ ".pdf")) = none ∧
      dstReady (extNoPdfStub.latexmk argv cwd fs).2 (tex_dst "proj")) ∧
    (¬ pathJoin (tex_bld "proj") ("main" ++ ".pdf") = tex_dst "proj") ∧
    ((build_document extNoPdfStub "proj" "main" (some (StrOrList.pyStr "out"))
        none sysDemo).1
      = Except.error
          (PyErr.fileNotFound (pathJoin (tex_bld "proj") ("main" ++ ".pdf"))) ∧
     (∀ c, PyErr.fileNotFound (pathJoin (tex_bld "proj") ("main" ++ ".pdf"))
        ≠ PyErr.calledProcessError c)) := by
  have hpathb : pathJoin (tex_bld "proj") ("main" ++ ".pdf")
      = "proj/bld/main.pdf" := by decide
  have hpathd : tex_dst "proj" = "proj/dst" := by decide
  have hlm : ∀ argv cwd (fs : FS),
      (extNoPdfStub.latexmk argv cwd fs).1 = 0 ∧
      (extNoPdfStub.latexmk argv cwd fs).2.getFile
        (pathJoin (tex_bld "proj") ("main" ++ ".pdf")) = none ∧
      dstReady (extNoPdfStub.latexmk argv cwd fs).2 (tex_dst "proj") := by
    intro argv cwd fs
    refine ⟨rfl, ?_, ?_⟩
    · rw [hpathb]
      show ((fs.set "proj/bld/main.pdf" Node.dir).set "proj/dst"
          Node.dir).getFile "proj/bld/main.pdf" = none
      rw [FS.getFile_set_ne _ _ _ _ (by decide)]
      exact FS.getFile_set_dir _ _
    · rw [hpathd]
      left
      exact FS.isDir_set_dir _ _
  exact ⟨Or.inl (by decide), hlm, by decide,
    C4_publish_fault_raises_distinct_error extNoPdfStub "proj" "main" "out"
      none sysDemo (Or.inl (by decide)) hlm (by decide)⟩

/-- C3: the build subcommand does not pass the extra compiler options
through.  run_args hands ns.latexmk_opts to build_document as the second
positional argument, which is the pdf_filename parameter, so on the
command line build proj main --latexmk-opts -draftmode the compiler is
invoked without -draftmode (the option list never reaches latexmk) and
the run then crashes with a TypeError at the publish step when the option
list is concatenated with ".pdf". -/
theorem C3_cli_build_drops_latexmk_opts :
    (run_args extKeepStub (fun _ => false) 0 nsDemo sysDemo).2.procs
      = [(["latexmk", "-halt-on-error", "-interaction=nonstopmode",
           "-pdflatex=lualatex", "-pdf", "main.tex"], "proj/bld"),
         (["rsync", "-av", "proj/src/", "proj/bld"], "/home/user")] ∧
    (run_args extKeepStub (fun _ => false) 0 nsDemo sysDemo).1
      = Except.error PyErr.typeError := by
  constructor
  · decide
  · decide

/-- C8 counterexample: on a build tree with an undeletable locked file,
the rmtree failure list is non-empty and the other stale file is still
deleted, but clean returns only the unit value (Python None): the failure
list is not returned to the caller. -/
theorem C8_counterexample_clean_returns_no_failure_list :
    (rmtreeFs undelDemo fsDemo (tex_bld "proj")).2 ≠ [] ∧
    (rmtreeFs undelDemo fsDemo (tex_bld "proj")).1.find "proj/bld/other.aux"
      = none ∧
    (rmtreeFs undelDemo fsDemo (tex_bld "proj")).1.find "proj/bld/locked.aux"
      = some (Node.file "locked") ∧
    (clean undelDemo "proj" sysDemo).1 = Except.ok () := by
  refine ⟨by decide, by decide, by decide, ?_⟩
  obtain ⟨o, ho⟩ := clean_run undelDemo "proj" sysDemo (by decide)
  rw [ho]

/-- C8 amended: clean captures each per-entry deletion failure
individually through the rmtree error callback and still attempts every
remaining entry (each entry of the build tree that can be removed is
removed), but it does not return the failure list to the caller: it
returns nothing and only records whether any failure occurred, choosing
the final console message accordingly. -/
theorem C8_clean_reports_failures_but_returns_nothing (undel : String → Bool)
    (root : String) (s : Sys)
    (hbld : (s.fs.find (tex_bld root)).isSome = true) :
    (clean undel root s).1 = Except.ok () ∧
    (∀ p m, s.fs.find p = some m → underPath (tex_bld root) p = true →
      survives undel s.fs p = false → (clean undel root s).2.fs.find p = none) ∧
    ((clean undel root s).2.out.head?
        = some (Bcolors.WARNING ++ "CLEANUP FINISHED (errors encountered)"
            ++ Bcolors.ENDC ++ "\n")
      ↔ (rmtreeFs undel s.fs (tex_bld root)).2 ≠ []) := by
  obtain ⟨o, ho⟩ := clean_run undel root s hbld
  rw [ho]
  refine ⟨rfl, ?_, ?_⟩
  · intro p m hp hunder hsurv
    show (rmtreeFs undel s.fs (tex_bld root)).1.find p = none
    have hkey := FS.find_filter_key s.fs.entries
      (fun q => !(underPath (tex_bld root) q) || survives undel s.fs q) p
    have hfp : (!(underPath (tex_bld root) p) || survives undel s.fs p)
        = false := by
      rw [hunder, hsurv]
      rfl
    rw [hfp] at hkey
    simp only [Bool.false_eq_true, if_false] at hkey
    exact hkey
  · show ((if (rmtreeFs undel s.fs (tex_bld root)).2.isEmpty then
        Bcolors.OKGREEN ++ "CLEANUP FINISHED" ++ Bcolors.ENDC ++ "\n"
      else
        Bcolors.WARNING ++ "CLEANUP FINISHED (errors encountered)"
          ++ Bcolors.ENDC ++ "\n") :: o).head?
        = some (Bcolors.WARNING ++ "CLEANUP FINISHED (errors encountered)"
            ++ Bcolors.ENDC ++ "\n")
      ↔ (rmtreeFs undel s.fs (tex_bld root)).2 ≠ []
    by_cases hfe : (rmtreeFs undel s.fs (tex_bld root)).2.isEmpty
    · rw [if_pos hfe]
      simp only [List.head?_cons, Option.some.injEq]
      constructor
      · intro h
        exact absurd h (by decide)
      · intro h
        exact absurd (List.isEmpty_iff.mp hfe) h
    · have hfe' : (rmtreeFs undel s.fs (tex_bld root)).2.isEmpty = false := by
        cases hv : (rmtreeFs undel s.fs (tex_bld root)).2.isEmpty with
        | false => rfl
        | true => exact absurd hv hfe
      rw [if_neg hfe]
      simp only [List.head?_cons, Option.some.injEq, true_iff]
      intro hnil
      rw [hnil] at hfe'
      cases hfe'

/-- Witness for the amended C8 on the demonstration tree with the locked
file. -/
theorem C8_clean_reports_failures_but_returns_nothing_witness :
    (sysDemo.fs.find (tex_bld "proj")).isSome = true ∧
    ((clean undelDemo "proj" sysDemo).1 = Except.ok () ∧
     (∀ p m, sysDemo.fs.find p = some m →
       underPath (tex_bld "proj") p = true →
       survives undelDemo sysDemo.fs p = false →
       (clean undelDemo "proj" sysDemo).2.fs.find p = none) ∧
     ((clean undelDemo "proj" sysDemo).2.out.head?
         = some (Bcolors.WARNING ++ "CLEANUP FINISHED (errors encountered)"
             ++ Bcolors.ENDC ++ "\n")
       ↔ (rmtreeFs undelDemo sysDemo.fs (tex_bld "proj")).2 ≠ [])) :=
  ⟨by decide,
   C8_clean_reports_failures_but_returns_nothing undelDemo "proj" sysDemo
     (by decide)⟩

end Texbuild
